import Mathlib

/-
  Verification development for the deno_signalr client
  (repository JullianDev/deno_signalr).

  The definitions below are a shallow embedding of the connection
  lifecycle engine: the Client class (src/classes/Client.ts, also
  present in older form in src/src.ts), the Hub class
  (src/classes/Hub.ts, with the older record-based variant kept in the
  repository as well), and the handshake exchanges _negotiate / _start /
  _abort.  Stateful methods become pure functions from an explicit
  ClientState to a pair of the updated state and a trace of observable
  events (notifications posted, timers scheduled, socket operations).
-/

namespace DenoSignalR

/-- SignalR connection state (enum ConnectionState in the source:
connected = 1, reconnecting = 2, disconnected = 4). -/
inductive ConnectionState where
  | connected
  | reconnecting
  | disconnected
deriving DecidableEq, Repr

/-- SignalR error codes (enum ErrorCode in the source). -/
inductive ErrorCode where
  | invalidURL
  | invalidProtocol
  | noHub
  | unsupportedWebsocket
  | unauthorized
  | connectLost
  | negotiateError
  | startError
  | connectError
  | socketError
  | abortError
deriving DecidableEq, Repr

/-- The `message` payload carried by a thrown SignalR error: either
nothing (null / undefined), an HTTP status number, or an opaque
underlying error rendered as a string. -/
inductive ErrMsg where
  | none
  | status (n : Nat)
  | raw (s : String)
deriving DecidableEq, Repr

/-- StandardError: the `{ code, message }` error record surfaced on the
`error` event and carried by SignalRHubError. -/
structure StandardError where
  code : ErrorCode
  message : ErrMsg
deriving DecidableEq, Repr

/-- A value thrown by one of the handshake exchanges: either a
SignalRHubError carrying an ErrorCode, or a raw network error rethrown
unchanged (as `_negotiate` does in its catch block). -/
inductive Thrown where
  | hubError (code : ErrorCode) (message : ErrMsg)
  | network (e : String)
deriving DecidableEq, Repr

/-- The four notification kinds posted on the Evt event boundary. -/
inductive Notification where
  | connected
  | disconnected (reason : String)
  | reconnecting (count : Nat)
  | error (code : ErrorCode) (message : ErrMsg)
deriving DecidableEq, Repr

/-- The binding of one of the four socket event handlers: the handler
installed by `_connect`, or the no-op closure installed by `_close`. -/
inductive HandlerBinding where
  | installed
  | noop
deriving DecidableEq, Repr

/-- Which of the four socket event handlers is being rebound. -/
inductive HKind where
  | hopen
  | hmessage
  | herror
  | hclose
deriving DecidableEq, Repr

/-- The websocket handle owned by the client, reduced to the bindings of
its four event handlers. -/
structure Socket where
  onopen : HandlerBinding
  onmessage : HandlerBinding
  onerror : HandlerBinding
  onclose : HandlerBinding
deriving DecidableEq, Repr

/-- Observable events emitted while a client method runs, in program
order: Evt posts, invocations of `_reconnect`, `lastMessageAt`
refreshes, push-handler dispatches, callback settlements, timer
scheduling, handler rebinding, the actual socket close (carrying a
snapshot of the handler bindings at the moment `close()` is issued),
and the kick-off of the negotiate fetch / `start()` / `_connect()`. -/
inductive Ev where
  | post (n : Notification)
  | reconnectCall (fullRestart : Bool)
  | markLastMessage
  | dispatch (hub method : String) (cb : Nat) (args : Option (List String))
  | settle (i : Nat) (e : Option String) (r : Option Bool)
  | scheduleBeat
  | scheduleReconnect
  | rebind (h : HKind)
  | closeSocket (w : Socket)
  | fetchNegotiate
  | startCall
  | connectCall
deriving DecidableEq, Repr

/- ---------------------------------------------------------------
   JavaScript record (plain object keyed by strings) operations,
   used by the record-based handler registry.
   --------------------------------------------------------------- -/

/-- JS record assignment `m[k] = v`: replace the binding of `k` when it
exists, otherwise append it. -/
def recordSet {α : Type} : List (String × α) → String → α → List (String × α)
  | [], k, v => [(k, v)]
  | (k', v') :: rest, k, v =>
      if k' = k then (k, v) :: rest else (k', v') :: recordSet rest k v

/-- JS record lookup `m[k]`: the bound value, or undefined. -/
def recordGet {α : Type} : List (String × α) → String → Option α
  | [], _ => Option.none
  | (k', v') :: rest, k => if k' = k then some v' else recordGet rest k

/-- The two-level handler registry `handlers[hub][method]` of the
record-based Hub; callbacks are identified by numeric tokens. -/
abbrev HandlerMap := List (String × List (String × Nat))

/-- Method `Hub.on` of the record-based Hub (src/unnamed/part_002, and
`Hub.on` in src/src.ts): fetch `handlers[hub]`, creating the inner
record when absent, then assign `handler[method] = callback`. -/
def Hub.on (handlers : HandlerMap) (hub method : String) (cb : Nat) : HandlerMap :=
  let handler := match recordGet handlers hub with
    | some h => h
    | Option.none => []
  recordSet handlers hub (recordSet handler method cb)

/-- Method `Hub.on` of the tuple-list Hub (src/classes/Hub.ts): the handlers
field is an array of `[hub, method, callback]` triples and registration
pushes a new triple onto it. -/
def HubT.on (handlers : List (String × String × Nat)) (hub method : String)
    (cb : Nat) : List (String × String × Nat) :=
  handlers ++ [(hub, method, cb)]

/- ---------------------------------------------------------------
   The pending-call record created by Hub.call (src/classes/Hub.ts).
   --------------------------------------------------------------- -/

/-- Why a call promise was rejected: the timeout timer firing
(`reject(new Error("Timeout"))`) or a truthy server error string. -/
inductive RejectReason where
  | timeoutError
  | serverError (s : String)
deriving DecidableEq, Repr

/-- A JS promise, with first-settlement-wins semantics. -/
inductive PromiseState where
  | pending
  | resolved (r : Option Bool)
  | rejected (e : RejectReason)
deriving DecidableEq, Repr

/-- Promise `resolve(r)`: a no-op when the promise is already settled. -/
def PromiseState.resolve (p : PromiseState) (r : Option Bool) : PromiseState :=
  match p with
  | .pending => .resolved r
  | _ => p

/-- Promise `reject(e)`: a no-op when the promise is already settled. -/
def PromiseState.reject (p : PromiseState) (e : RejectReason) : PromiseState :=
  match p with
  | .pending => .rejected e
  | _ => p

/-- The per-invocation pending-call record made by `Hub.call`: whether
`callbacks[invocationId]` is still present, whether the timeout timer is
still armed (not fired and not cleared), and the promise. -/
structure PendingCall where
  entry : Bool
  timerArmed : Bool
  promise : PromiseState
deriving DecidableEq, Repr

/-- State of a pending call right after `Hub.call` ran: the callback
entry is registered, the timeout timer armed, the promise pending. -/
def Hub.callInit : PendingCall := { entry := true, timerArmed := true, promise := .pending }

/-- The timeout timer body of `Hub.call` (src/classes/Hub.ts):
`delete this.callbacks[invocationId]; reject(new Error("Timeout"))`.
It can only run while the timer is armed; firing disarms it. -/
def Hub.callTimeoutFire (c : PendingCall) : PendingCall :=
  if c.timerArmed then
    { entry := false, timerArmed := false, promise := c.promise.reject .timeoutError }
  else c

/-- Method `Hub._handleCallback` reaching this invocation id with a response,
running the registered callback
`clearTimeout(timeoutTimer); delete this.callbacks[invocationId];
if (error) reject(error); resolve(result);` — a no-op when the entry
was already removed.  JS string truthiness: an empty error string does
not reject. -/
def Hub.callResponse (e : Option String) (r : Option Bool) (c : PendingCall) : PendingCall :=
  if c.entry then
    let afterReject := match e with
      | some err => if err ≠ "" then c.promise.reject (.serverError err) else c.promise
      | Option.none => c.promise
    { entry := false, timerArmed := false, promise := afterReject.resolve r }
  else c

/-- The two events that can reach a pending call. -/
inductive CallEv where
  | timeout
  | response (e : Option String) (r : Option Bool)
deriving DecidableEq, Repr

/-- One event delivered to a pending call. -/
def Hub.callStepEv (c : PendingCall) (ev : CallEv) : PendingCall :=
  match ev with
  | .timeout => Hub.callTimeoutFire c
  | .response e r => Hub.callResponse e r c

/-- A sequence of events delivered to a pending call. -/
def Hub.callRun (c : PendingCall) : List CallEv → PendingCall
  | [] => c
  | ev :: rest => Hub.callRun (Hub.callStepEv c ev) rest

/- ---------------------------------------------------------------
   Handshake exchanges (src/classes/Client.ts).
   --------------------------------------------------------------- -/

/-- The JSON body of a negotiate response, restricted to the fields the
client reads. -/
structure NegotiateBody where
  TryWebSockets : Bool
  ConnectionToken : Option String
  ConnectionId : Option String
  KeepAliveTimeout : Option Nat
deriving DecidableEq, Repr

/-- Outcome of one fetch: a network failure (the promise rejected), or
an HTTP response with a status code and a body. -/
inductive FetchOutcome (β : Type) where
  | netError (e : String)
  | response (status : Nat) (body : β)
deriving DecidableEq, Repr

/-- Field `Response.ok` per the fetch specification: status in 200..299. -/
def respOk (status : Nat) : Bool := 200 ≤ status && status ≤ 299

/-- Method `Client._negotiate` (src/classes/Client.ts): a network failure is
rethrown unchanged (`catch (err) { throw err }`); on an ok response a
missing `TryWebSockets` throws unsupportedWebsocket, otherwise the body
is returned; status 302/401/403 throws unauthorized; any other non-ok
status throws negotiateError carrying the status. -/
def Client.negotiateResult (out : FetchOutcome NegotiateBody) :
    Except Thrown NegotiateBody :=
  match out with
  | .netError e => .error (.network e)
  | .response status body =>
      if respOk status then
        if !body.TryWebSockets then .error (.hubError .unsupportedWebsocket .none)
        else .ok body
      else if status == 302 || status == 401 || status == 403 then
        .error (.hubError .unauthorized .none)
      else .error (.hubError .negotiateError (.status status))

/-- Method `Client._start` (src/classes/Client.ts): a network failure throws
startError carrying the underlying error; an ok response returns its
body; status 302/401/403 throws unauthorized; any other non-ok status
throws startError carrying the status. -/
def Client.startResult (out : FetchOutcome String) : Except Thrown String :=
  match out with
  | .netError e => .error (.hubError .startError (.raw e))
  | .response status body =>
      if respOk status then .ok body
      else if status == 302 || status == 401 || status == 403 then
        .error (.hubError .unauthorized .none)
      else .error (.hubError .startError (.status status))

/-- Method `Client._abort` (src/classes/Client.ts): a network failure throws
abortError carrying the underlying error; an ok response returns;
status 302/401/403 throws unauthorized; any other non-ok status throws
abortError carrying the status. -/
def Client.abortResult (out : FetchOutcome Unit) : Except Thrown Unit :=
  match out with
  | .netError e => .error (.hubError .abortError (.raw e))
  | .response status _ =>
      if respOk status then .ok ()
      else if status == 302 || status == 401 || status == 403 then
        .error (.hubError .unauthorized .none)
      else .error (.hubError .abortError (.status status))

/-- The ErrorCode carried by a thrown value, when it is a
SignalRHubError; a raw rethrown network error carries none. -/
def Thrown.codeOf : Thrown → Option ErrorCode
  | .hubError c _ => some c
  | .network _ => Option.none

/- ---------------------------------------------------------------
   The Client state (src/classes/Client.ts fields, together with the
   handler and callback registries of its connection's Hub).
   --------------------------------------------------------------- -/

/-- A value stored in the `_hubNames` list: a plain hub-name string as
passed to the constructor, or the `{ name: v }` record built by the
one-time normalization in `start`. -/
inductive NameVal where
  | str (s : String)
  | wrap (v : NameVal)
deriving DecidableEq, Repr

/-- The `_hubNames` field: an array of values, or a non-array value
(only reachable by untyped callers); `Array.isArray` distinguishes the
two. -/
inductive HubsVal where
  | arr (l : List NameVal)
  | nonArray
deriving DecidableEq, Repr

/-- The endpoint-list normalization in `start`:
`for (const hub of this._hubNames) hubs.push({ name: hub })`. -/
def normalizeHubs (l : List NameVal) : List NameVal := l.map NameVal.wrap

/-- The mutable state of a Client together with its connection's Hub
registries.  `reconnectTimer` remembers the `restart` flag captured by
the scheduled reconnect callback; `callbacks` holds the invocation ids
with a registered response callback. -/
structure ClientState where
  url : String
  hubs : HubsVal
  bound : Bool
  connState : ConnectionState
  lastMessageAt : Nat
  invocationId : Nat
  callTimeoutOverride : Nat
  callTimeout : Nat
  keepAlive : Bool
  keepAliveTimeout : Nat
  beatInterval : Nat
  beatTimer : Bool
  reconnectTimer : Option Bool
  reconnectCount : Nat
  handlers : HandlerMap
  callbacks : List Nat
  websocket : Option Socket
deriving DecidableEq, Repr

/-- Method `Client._close`: when a websocket exists, rebind its onclose,
onmessage and onerror handlers to no-ops, then call `close()` and drop
the reference.  The closeSocket event records the handler bindings at
the moment `close()` runs. -/
def Client.close (s : ClientState) : ClientState × List Ev :=
  match s.websocket with
  | some w =>
      let w1 : Socket := { w with onclose := .noop }
      let w2 : Socket := { w1 with onmessage := .noop }
      let w3 : Socket := { w2 with onerror := .noop }
      ({ s with websocket := Option.none },
        [.rebind .hclose, .rebind .hmessage, .rebind .herror, .closeSocket w3])
  | Option.none => (s, [])

/-- Method `Client._clearBeatTimer`: clear the beat timer if set. -/
def Client.clearBeatTimer (s : ClientState) : ClientState :=
  if s.beatTimer then { s with beatTimer := false } else s

/-- Method `Client._reconnect(restart)`: a no-op when a reconnect timer is
already pending or the state is already reconnecting; otherwise clear
the beat timer, close the socket and schedule the reconnect callback. -/
def Client.reconnect (restart : Bool) (s : ClientState) : ClientState × List Ev :=
  if s.reconnectTimer.isSome ∨ s.connState = .reconnecting then (s, [])
  else
    let c := Client.close (Client.clearBeatTimer s)
    ({ c.1 with reconnectTimer := some restart }, c.2 ++ [.scheduleReconnect])

/-- Method `Client._error(code, extra)`: post the error notification, then
invoke `_reconnect(true)` for negotiateError/connectError and
`_reconnect()` for startError/connectLost; every other code triggers no
recovery.  A reconnectCall event marks each `_reconnect` invocation. -/
def Client.error (code : ErrorCode) (extra : ErrMsg) (s : ClientState) :
    ClientState × List Ev :=
  let tr0 : List Ev := [.post (.error code extra)]
  if code = .negotiateError ∨ code = .connectError then
    let c := Client.reconnect true s
    (c.1, tr0 ++ .reconnectCall true :: c.2)
  else if code = .startError ∨ code = .connectLost then
    let c := Client.reconnect false s
    (c.1, tr0 ++ .reconnectCall false :: c.2)
  else (s, tr0)

/-- Method `Client._beat`: when connected, compare the time since
`lastMessageAt` against the keep-alive timeout; on expiry transition to
disconnected and raise connectLost, otherwise arm the beat timer for
another interval. -/
def Client.beat (now : Nat) (s : ClientState) : ClientState × List Ev :=
  if s.connState = .connected then
    if now - s.lastMessageAt > s.keepAliveTimeout then
      Client.error .connectLost .none { s with connState := .disconnected }
    else ({ s with beatTimer := true }, [.scheduleBeat])
  else (s, [])

/- ---------------------------------------------------------------
   Inbound frames (Client._receiveMessage and Hub._handleCallback).
   --------------------------------------------------------------- -/

/-- One element of an inbound push batch: `{H, M, A}` with every field
optional. -/
structure Message where
  H : Option String
  M : Option String
  A : Option (List String)
deriving DecidableEq, Repr

/-- A parsed inbound frame body: `{M?, I?, E?, R?}`. -/
structure HubMessageData where
  M : Option (List Message)
  I : Option Nat
  E : Option String
  R : Option Bool
deriving DecidableEq, Repr

/-- The payload of a MessageEvent: the literal string representing the
empty object, or a parsed body. -/
inductive FrameData where
  | emptyObj
  | obj (d : HubMessageData)
deriving DecidableEq, Repr

/-- The dispatch of a single push message by `_receiveMessage`:
`if (this.connection && message.H)` (string truthiness: nonempty),
look up `handlers[hub]`, then `if (handler && message.M)` look up
`handler[message.M]`, and `if (method) method(message.A)`. -/
def Client.dispatchOne (handlers : HandlerMap) (m : Message) : List Ev :=
  match m.H with
  | some h =>
      if h ≠ "" then
        match recordGet handlers h with
        | some handler =>
            match m.M with
            | some meth =>
                if meth ≠ "" then
                  match recordGet handler meth with
                  | some cb => [.dispatch h meth cb m.A]
                  | Option.none => []
                else []
            | Option.none => []
        | Option.none => []
      else []
  | Option.none => []

/-- The dispatch loop `for (const message of data.M)`. -/
def Client.dispatchAll (handlers : HandlerMap) (msgs : List Message) : List Ev :=
  (msgs.map (Client.dispatchOne handlers)).flatten

/-- Method `Hub._handleCallback(invocationId, error, result)`: when a callback
is registered for the id, run it — which removes the entry and settles
the call's promise; otherwise do nothing. -/
def Hub.handleCallback (i : Nat) (e : Option String) (r : Option Bool)
    (s : ClientState) : ClientState × List Ev :=
  if s.callbacks.contains i then
    ({ s with callbacks := s.callbacks.filter (fun j => j ≠ i) }, [.settle i e r])
  else (s, [])

/-- Method `Client._receiveMessage`: refresh `lastMessageAt` first, then — for
a "message"-typed event whose payload is not the literal empty object —
dispatch the push batch when `data.M` is present (even when empty),
else settle via `_handleCallback` when `data.I` is truthy (present and
nonzero). -/
def Client.receiveMessage (type_ : String) (data : FrameData) (now : Nat)
    (s : ClientState) : ClientState × List Ev :=
  let s0 := { s with lastMessageAt := now }
  let tr0 : List Ev := [.markLastMessage]
  if type_ = "message" then
    match data with
    | .emptyObj => (s0, tr0)
    | .obj d =>
        match d.M with
        | some msgs => (s0, tr0 ++ Client.dispatchAll s0.handlers msgs)
        | Option.none =>
            match d.I with
            | some i =>
                if i ≠ 0 then
                  let c := Hub.handleCallback i d.E d.R s0
                  (c.1, tr0 ++ c.2)
                else (s0, tr0)
            | Option.none => (s0, tr0)
  else (s0, tr0)

/- ---------------------------------------------------------------
   start: one-time validation and negotiate-response processing.
   --------------------------------------------------------------- -/

/-- Model of `String.prototype.startsWith`: the characters of the prefix lead
the characters of the string. -/
def strStartsWith (s pre : String) : Bool := pre.data.isPrefixOf s.data

/-- The pre-negotiate phase of `Client.start`: when not yet bound,
validate the URL (`!this.url` raises invalidURL, a prefix other than
http:/https: raises invalidProtocol), then normalize the endpoint list
when it is an array (raising noHub when it is not) and set the bound
flag; any failure returns via `_error` without issuing the negotiate
fetch. -/
def Client.startPhase1 (s : ClientState) : ClientState × List Ev :=
  if s.bound = false then
    if s.url = "" then Client.error .invalidURL .none s
    else if !(strStartsWith s.url "http:" || strStartsWith s.url "https:") then
      Client.error .invalidProtocol .none s
    else
      match s.hubs with
      | .arr l =>
          ({ s with hubs := .arr (normalizeHubs l), bound := true }, [.fetchNegotiate])
      | .nonArray => Client.error .noHub .none s
  else (s, [.fetchNegotiate])

/-- The keep-alive processing of the negotiate response in
`Client.start`: a truthy numeric `KeepAliveTimeout` (present and
nonzero) enables keep-alive, sets `_keepAliveTimeout` to its value in
milliseconds and `_beatInterval` to a quarter of that; otherwise
keep-alive is disabled, leaving the previous timeout and interval. -/
def Client.applyKeepAlive (body : NegotiateBody) (s : ClientState) : ClientState :=
  match body.KeepAliveTimeout with
  | some k =>
      if k ≠ 0 then
        let s1 := { s with keepAlive := true }
        let s2 := { s1 with keepAliveTimeout := k * 1000 }
        { s2 with beatInterval := s2.keepAliveTimeout / 4 }
      else { s with keepAlive := false }
  | Option.none => { s with keepAlive := false }

/- ---------------------------------------------------------------
   The socket-driven event loop (Client._connect handlers, timers).
   --------------------------------------------------------------- -/

/-- Result of the awaited `this._start(protocol)` inside the onopen
handler: `_start` only throws SignalRHubError values. -/
inductive StartOutcome where
  | success
  | failure (e : StandardError)
deriving DecidableEq, Repr

/-- The onopen handler installed by `_connect`: reset `_invocationId`
and `_callTimeout` to zero, await the start exchange; on success reset
the reconnect counter, post connected, set the state to connected,
refresh `lastMessageAt` and begin the heartbeat when keep-alive is
enabled; on failure set the state to disconnected and raise the thrown
error. -/
def Client.openHandlerBody (now : Nat) (outcome : StartOutcome) (s : ClientState) :
    ClientState × List Ev :=
  let s0 := { s with invocationId := 0, callTimeoutOverride := 0 }
  match outcome with
  | .success =>
      let s1 := { s0 with reconnectCount := 0 }
      let s2 := { s1 with connState := .connected }
      let s3 := { s2 with lastMessageAt := now }
      let tr : List Ev := [.post .connected, .markLastMessage]
      if s3.keepAlive then
        let c := Client.beat now s3
        (c.1, tr ++ c.2)
      else (s3, tr)
  | .failure err =>
      Client.error err.code err.message { s0 with connState := .disconnected }

/-- The body of the scheduled reconnect callback: increment the attempt
counter, set the state to reconnecting, post the notification, then
kick off `start` (full restart) or `_connect`, and clear the timer
handle. -/
def Client.reconnectTimerBody (restart : Bool) (s : ClientState) :
    ClientState × List Ev :=
  let s1 := { s with reconnectCount := s.reconnectCount + 1 }
  let s2 := { s1 with connState := .reconnecting }
  let tr : List Ev :=
    [.post (.reconnecting s1.reconnectCount), if restart then .startCall else .connectCall]
  ({ s2 with reconnectTimer := Option.none }, tr)

/-- Events delivered to the client by the single-threaded event loop:
socket handler invocations and timer firings. -/
inductive SessEv where
  | sockOpen (now : Nat) (outcome : StartOutcome)
  | sockMessage (type_ : String) (data : FrameData) (now : Nat)
  | sockError (hasErrField : Bool) (e : String)
  | sockClose
  | beatFire (now : Nat)
  | reconnectFire
deriving DecidableEq, Repr

/-- One event-loop step of the client. -/
def Client.step (s : ClientState) (e : SessEv) : ClientState × List Ev :=
  match e with
  | .sockOpen now outcome => Client.openHandlerBody now outcome s
  | .sockMessage type_ data now => Client.receiveMessage type_ data now s
  | .sockError hasErrField err =>
      if hasErrField then Client.error .socketError (.raw err) s else (s, [])
  | .sockClose =>
      let s1 := { s with callTimeoutOverride := 1000 }
      let s2 := { s1 with connState := .disconnected }
      let c := Client.reconnect false s2
      (c.1, [.post (.disconnected "failed"), .reconnectCall false] ++ c.2)
  | .beatFire now =>
      if s.beatTimer then Client.beat now { s with beatTimer := false } else (s, [])
  | .reconnectFire =>
      match s.reconnectTimer with
      | some restart => Client.reconnectTimerBody restart s
      | Option.none => (s, [])

/-- A sequence of event-loop steps, accumulating the trace. -/
def Client.run (s : ClientState) : List SessEv → ClientState × List Ev
  | [] => (s, [])
  | e :: rest =>
      ((Client.run (Client.step s e).1 rest).1,
        (Client.step s e).2 ++ (Client.run (Client.step s e).1 rest).2)

/-- The client-side registration performed by `Hub.call`: read the
current `_invocationId`, register `callbacks[invocationId]`, and send
the invocation (which increments `_invocationId`); returns the
correlation id the call was registered under. -/
def Hub.callRegister (s : ClientState) : ClientState × Nat :=
  let invocationId := s.invocationId
  let cbs := if s.callbacks.contains invocationId then s.callbacks
    else s.callbacks ++ [invocationId]
  ({ s with callbacks := cbs, invocationId := s.invocationId + 1 }, invocationId)

/-- The two-level handler lookup `handlers[hub][method]` performed on
the record-based registry, as `_receiveMessage` composes it. -/
def Hub.lookupHandler (handlers : HandlerMap) (hub method : String) : Option Nat :=
  match recordGet handlers hub with
  | some handler => recordGet handler method
  | Option.none => Option.none

/-- The error-to-recovery table as the specification states it (spec
section 7): full restart for negotiateError and connectError, soft
reconnect for startError and connectLost, nothing for every other
code.  This definition follows the claim's words and is compared with
the behaviour of `Client.error`. -/
def specRecoveryTable (code : ErrorCode) : List Ev :=
  match code with
  | .negotiateError => [.reconnectCall true]
  | .connectError => [.reconnectCall true]
  | .startError => [.reconnectCall false]
  | .connectLost => [.reconnectCall false]
  | _ => []

/-- The `_reconnect` invocations recorded in a trace. -/
def reconnectCallsOf (tr : List Ev) : List Ev :=
  tr.filter (fun e => match e with | .reconnectCall _ => true | _ => false)

/-- The `reconnecting` notifications recorded in a trace. -/
def reconnectingPostsOf (tr : List Ev) : List Ev :=
  tr.filter (fun e => match e with | .post (.reconnecting _) => true | _ => false)

/-- A freshly constructed client: disconnected, not bound, default
timeouts (5000 ms), no timers, empty registries, no socket. -/
def baseState : ClientState :=
  { url := "http://example", hubs := .arr [], bound := false,
    connState := .disconnected, lastMessageAt := 0, invocationId := 0,
    callTimeoutOverride := 0, callTimeout := 5000, keepAlive := true,
    keepAliveTimeout := 5000, beatInterval := 5000, beatTimer := false,
    reconnectTimer := Option.none, reconnectCount := 0, handlers := [],
    callbacks := [], websocket := Option.none }

/- ---------------------------------------------------------------
   Helper lemmas.
   --------------------------------------------------------------- -/

lemma recordGet_recordSet_self {α : Type} (m : List (String × α)) (k : String) (v : α) :
    recordGet (recordSet m k v) k = some v := by
  induction m with
  | nil => simp [recordSet, recordGet]
  | cons hd tl ih =>
      rcases hd with ⟨k', v'⟩
      by_cases hk : k' = k
      · subst hk
        simp [recordSet, recordGet]
      · simp [recordSet, recordGet, hk, ih]

lemma PromiseState.resolve_settled (p : PromiseState) (r : Option Bool)
    (h : p ≠ .pending) : p.resolve r = p := by
  cases p with
  | pending => exact absurd rfl h
  | resolved r0 => rfl
  | rejected e0 => rfl

lemma PromiseState.reject_settled (p : PromiseState) (e : RejectReason)
    (h : p ≠ .pending) : p.reject e = p := by
  cases p with
  | pending => exact absurd rfl h
  | resolved r0 => rfl
  | rejected e0 => rfl

lemma Hub.callStepEv_settled (c : PendingCall) (ev : CallEv)
    (h : c.promise ≠ .pending) : (Hub.callStepEv c ev).promise = c.promise := by
  cases ev with
  | timeout =>
      show (Hub.callTimeoutFire c).promise = c.promise
      unfold Hub.callTimeoutFire
      split
      · exact PromiseState.reject_settled c.promise _ h
      · rfl
  | response e r =>
      show (Hub.callResponse e r c).promise = c.promise
      unfold Hub.callResponse
      split
      · cases e with
        | none => exact PromiseState.resolve_settled c.promise r h
        | some err =>
            show ((if err ≠ "" then c.promise.reject (.serverError err)
                else c.promise).resolve r) = c.promise
            by_cases he : err = ""
            · rw [if_neg (fun hne => hne he)]
              exact PromiseState.resolve_settled c.promise r h
            · rw [if_pos he, PromiseState.reject_settled c.promise _ h]
              exact PromiseState.resolve_settled c.promise r h
      · rfl

lemma Hub.callRun_settled (evs : List CallEv) :
    ∀ c : PendingCall, c.promise ≠ .pending →
      (Hub.callRun c evs).promise = c.promise := by
  induction evs with
  | nil => intro c _; rfl
  | cons ev rest ih =>
      intro c h
      have hstep := Hub.callStepEv_settled c ev h
      show (Hub.callRun (Hub.callStepEv c ev) rest).promise = c.promise
      rw [ih (Hub.callStepEv c ev) (by rw [hstep]; exact h), hstep]

lemma Client.clearBeatTimer_beatTimer (s : ClientState) :
    (Client.clearBeatTimer s).beatTimer = false := by
  unfold Client.clearBeatTimer
  split
  · rfl
  · rename_i h
    simpa using h

lemma Client.clearBeatTimer_keepAlive (s : ClientState) :
    (Client.clearBeatTimer s).keepAlive = s.keepAlive := by
  unfold Client.clearBeatTimer
  split <;> rfl

lemma Client.clearBeatTimer_invocationId (s : ClientState) :
    (Client.clearBeatTimer s).invocationId = s.invocationId := by
  unfold Client.clearBeatTimer
  split <;> rfl

lemma Client.clearBeatTimer_reconnectCount (s : ClientState) :
    (Client.clearBeatTimer s).reconnectCount = s.reconnectCount := by
  unfold Client.clearBeatTimer
  split <;> rfl

lemma Client.close_keepAlive (s : ClientState) :
    (Client.close s).1.keepAlive = s.keepAlive := by
  unfold Client.close
  rcases hw : s.websocket with _ | w <;> simp [hw]

lemma Client.close_beatTimer (s : ClientState) :
    (Client.close s).1.beatTimer = s.beatTimer := by
  unfold Client.close
  rcases hw : s.websocket with _ | w <;> simp [hw]

lemma Client.close_invocationId (s : ClientState) :
    (Client.close s).1.invocationId = s.invocationId := by
  unfold Client.close
  rcases hw : s.websocket with _ | w <;> simp [hw]

lemma Client.close_reconnectCount (s : ClientState) :
    (Client.close s).1.reconnectCount = s.reconnectCount := by
  unfold Client.close
  rcases hw : s.websocket with _ | w <;> simp [hw]

lemma Client.close_trace_shape (s : ClientState) :
    (Client.close s).2 = [] ∨ ∃ w : Socket, (Client.close s).2 =
      [.rebind .hclose, .rebind .hmessage, .rebind .herror, .closeSocket w] := by
  unfold Client.close
  rcases hw : s.websocket with _ | w
  · simp [hw]
  · right
    simp [hw]

lemma scheduleBeat_not_mem_close (s : ClientState) :
    Ev.scheduleBeat ∉ (Client.close s).2 := by
  rcases Client.close_trace_shape s with h | ⟨w, h⟩ <;> rw [h] <;> simp

lemma reconnectCallsOf_close (s : ClientState) :
    reconnectCallsOf (Client.close s).2 = [] := by
  rcases Client.close_trace_shape s with h | ⟨w, h⟩ <;> rw [h] <;> rfl

lemma reconnectingPostsOf_close (s : ClientState) :
    reconnectingPostsOf (Client.close s).2 = [] := by
  rcases Client.close_trace_shape s with h | ⟨w, h⟩ <;> rw [h] <;> rfl

lemma Client.reconnect_debounced (b : Bool) (s : ClientState)
    (h : s.reconnectTimer.isSome = true ∨ s.connState = .reconnecting) :
    Client.reconnect b s = (s, []) := by
  unfold Client.reconnect
  rw [if_pos h]

lemma Client.reconnect_armed (b : Bool) (s : ClientState)
    (h1 : s.reconnectTimer = Option.none) (h2 : s.connState ≠ .reconnecting) :
    Client.reconnect b s =
      ({ (Client.close (Client.clearBeatTimer s)).1 with reconnectTimer := some b },
        (Client.close (Client.clearBeatTimer s)).2 ++ [.scheduleReconnect]) := by
  unfold Client.reconnect
  rw [if_neg (by simp [h1, h2])]

lemma Client.reconnect_keepAlive (b : Bool) (s : ClientState) :
    (Client.reconnect b s).1.keepAlive = s.keepAlive := by
  unfold Client.reconnect
  split
  · rfl
  · simp [Client.close_keepAlive, Client.clearBeatTimer_keepAlive]

lemma Client.reconnect_invocationId (b : Bool) (s : ClientState) :
    (Client.reconnect b s).1.invocationId = s.invocationId := by
  unfold Client.reconnect
  split
  · rfl
  · simp [Client.close_invocationId, Client.clearBeatTimer_invocationId]

lemma Client.reconnect_reconnectCount (b : Bool) (s : ClientState) :
    (Client.reconnect b s).1.reconnectCount = s.reconnectCount := by
  unfold Client.reconnect
  split
  · rfl
  · simp [Client.close_reconnectCount, Client.clearBeatTimer_reconnectCount]

lemma Client.reconnect_beatTimer (b : Bool) (s : ClientState)
    (h : s.beatTimer = false) : (Client.reconnect b s).1.beatTimer = false := by
  unfold Client.reconnect
  split
  · exact h
  · simp [Client.close_beatTimer, Client.clearBeatTimer_beatTimer]

lemma scheduleBeat_not_mem_reconnect (b : Bool) (s : ClientState) :
    Ev.scheduleBeat ∉ (Client.reconnect b s).2 := by
  unfold Client.reconnect
  split
  · simp
  · simp only [List.mem_append]
    rintro (h | h)
    · exact scheduleBeat_not_mem_close _ h
    · simp at h

lemma reconnectCallsOf_reconnect (b : Bool) (s : ClientState) :
    reconnectCallsOf (Client.reconnect b s).2 = [] := by
  unfold Client.reconnect
  split
  · rfl
  · show reconnectCallsOf ((Client.close _).2 ++ [.scheduleReconnect]) = []
    unfold reconnectCallsOf
    rw [List.filter_append]
    have h := reconnectCallsOf_close (Client.clearBeatTimer s)
    unfold reconnectCallsOf at h
    rw [h]
    rfl

lemma Client.error_trace (code : ErrorCode) (extra : ErrMsg) (s : ClientState) :
    (Client.error code extra s).2 = Ev.post (.error code extra) ::
      (if code = .negotiateError ∨ code = .connectError then
        Ev.reconnectCall true :: (Client.reconnect true s).2
      else if code = .startError ∨ code = .connectLost then
        Ev.reconnectCall false :: (Client.reconnect false s).2
      else []) := by
  unfold Client.error
  split
  · rfl
  · split
    · rfl
    · rfl

lemma Client.error_keepAlive (code : ErrorCode) (extra : ErrMsg) (s : ClientState) :
    (Client.error code extra s).1.keepAlive = s.keepAlive := by
  unfold Client.error
  split
  · simp [Client.reconnect_keepAlive]
  · split
    · simp [Client.reconnect_keepAlive]
    · rfl

lemma Client.error_invocationId (code : ErrorCode) (extra : ErrMsg) (s : ClientState) :
    (Client.error code extra s).1.invocationId = s.invocationId := by
  unfold Client.error
  split
  · simp [Client.reconnect_invocationId]
  · split
    · simp [Client.reconnect_invocationId]
    · rfl

lemma Client.error_beatTimer (code : ErrorCode) (extra : ErrMsg) (s : ClientState)
    (h : s.beatTimer = false) : (Client.error code extra s).1.beatTimer = false := by
  unfold Client.error
  split
  · simp [Client.reconnect_beatTimer _ _ h]
  · split
    · simp [Client.reconnect_beatTimer _ _ h]
    · exact h

lemma scheduleBeat_not_mem_error (code : ErrorCode) (extra : ErrMsg) (s : ClientState) :
    Ev.scheduleBeat ∉ (Client.error code extra s).2 := by
  rw [Client.error_trace]
  intro hmem
  rcases List.mem_cons.mp hmem with h | h
  · simp at h
  · split at h
    · rcases List.mem_cons.mp h with h' | h'
      · simp at h'
      · exact scheduleBeat_not_mem_reconnect _ _ h'
    · split at h
      · rcases List.mem_cons.mp h with h' | h'
        · simp at h'
        · exact scheduleBeat_not_mem_reconnect _ _ h'
      · simp at h

/- ---------------------------------------------------------------
   Claim theorems.
   --------------------------------------------------------------- -/

/-- Claim C1: a pending call created by `Hub.call` is settled at most
once, by exactly one of a matching response or the timeout.  The
timeout path removes the callback entry and rejects the promise with
the Timeout failure; a response settles the promise (rejecting on a
truthy error, resolving otherwise) and disarms the timer; after either
path has run, the other path is a no-op, and a settled promise never
changes again under any further event sequence. -/
theorem c1_call_at_most_once_settlement :
    (Hub.callStepEv Hub.callInit .timeout =
      { entry := false, timerArmed := false, promise := .rejected .timeoutError })
    ∧ (∀ (e : Option String) (r : Option Bool),
        Hub.callStepEv (Hub.callStepEv Hub.callInit .timeout) (.response e r) =
          Hub.callStepEv Hub.callInit .timeout)
    ∧ (∀ r : Option Bool,
        Hub.callStepEv Hub.callInit (.response Option.none r) =
          { entry := false, timerArmed := false, promise := .resolved r })
    ∧ (∀ (err : String) (r : Option Bool),
        Hub.callStepEv Hub.callInit (.response (some err) r) =
          { entry := false, timerArmed := false, promise :=
              if err = "" then .resolved r else .rejected (.serverError err) })
    ∧ (∀ (e : Option String) (r : Option Bool),
        Hub.callStepEv (Hub.callStepEv Hub.callInit (.response e r)) .timeout =
          Hub.callStepEv Hub.callInit (.response e r))
    ∧ (∀ (evs : List CallEv) (b t : Bool) (r : Option Bool),
        (Hub.callRun { entry := b, timerArmed := t, promise := .resolved r } evs).promise
          = .resolved r)
    ∧ (∀ (evs : List CallEv) (b t : Bool) (e : RejectReason),
        (Hub.callRun { entry := b, timerArmed := t, promise := .rejected e } evs).promise
          = .rejected e) := by
  refine ⟨rfl, ?_, ?_, ?_, ?_, ?_, ?_⟩
  · intro e r
    rfl
  · intro r
    rfl
  · intro err r
    show ({ entry := false, timerArmed := false, promise :=
        (if err ≠ "" then (PromiseState.pending).reject (.serverError err)
          else PromiseState.pending).resolve r } : PendingCall) = _
    by_cases he : err = ""
    · rw [if_neg (fun hne => hne he), if_pos he]
      rfl
    · rw [if_pos he, if_neg he]
      rfl
  · intro e r
    rfl
  · intro evs b t r
    exact Hub.callRun_settled evs _ (by simp)
  · intro evs b t e
    exact Hub.callRun_settled evs _ (by simp)

/-- Claim C2 counterexample: a transport-level (network) failure of the
negotiate exchange is rethrown unchanged by `_negotiate` — the raised
value is the raw network error, which carries no SignalR error code at
all, rather than a negotiateError-coded error as the claim states. -/
theorem c2_negotiate_network_counterexample :
    Client.negotiateResult (.netError "connection refused")
      = .error (.network "connection refused")
    ∧ Thrown.codeOf (.network "connection refused") = Option.none := by
  exact ⟨rfl, rfl⟩

/-- Claim C2 (amended): start and abort map their own network failures
to startError and abortError respectively, while negotiate rethrows its
network failure unchanged (no error code); all three exchanges raise
unauthorized on HTTP status 302, 401 or 403, and on any other non-ok
status each exchange raises its own error code carrying the status. -/
theorem c2_handshake_error_mapping :
    (∀ e : String, Client.negotiateResult (.netError e) = .error (.network e))
    ∧ (∀ e : String, Client.startResult (.netError e) =
        .error (.hubError .startError (.raw e)))
    ∧ (∀ e : String, Client.abortResult (.netError e) =
        .error (.hubError .abortError (.raw e)))
    ∧ (∀ (status : Nat) (body : NegotiateBody),
        status = 302 ∨ status = 401 ∨ status = 403 →
          Client.negotiateResult (.response status body)
              = .error (.hubError .unauthorized .none)
          ∧ (∀ sb : String, Client.startResult (.response status sb)
              = .error (.hubError .unauthorized .none))
          ∧ Client.abortResult (.response status ())
              = .error (.hubError .unauthorized .none))
    ∧ (∀ (status : Nat) (body : NegotiateBody),
        respOk status = false →
        (status == 302 || status == 401 || status == 403) = false →
          Client.negotiateResult (.response status body)
              = .error (.hubError .negotiateError (.status status))
          ∧ (∀ sb : String, Client.startResult (.response status sb)
              = .error (.hubError .startError (.status status)))
          ∧ Client.abortResult (.response status ())
              = .error (.hubError .abortError (.status status))) := by
  refine ⟨fun e => rfl, fun e => rfl, fun e => rfl, ?_, ?_⟩
  · intro status body h
    rcases h with rfl | rfl | rfl <;>
      exact ⟨rfl, fun sb => rfl, rfl⟩
  · intro status body h1 h2
    refine ⟨?_, ?_, ?_⟩
    · simp [Client.negotiateResult, h1, h2]
    · intro sb
      simp [Client.startResult, h1, h2]
    · simp [Client.abortResult, h1, h2]

/-- Claim C2 witness: the amended mapping evaluated at concrete
exchanges — negotiate at HTTP 401 raises unauthorized, start at HTTP
500 raises startError 500, abort on a network failure raises abortError
with the underlying error. -/
theorem c2_handshake_error_mapping_witness :
    Client.negotiateResult (.response 401
        { TryWebSockets := true, ConnectionToken := Option.none,
          ConnectionId := Option.none, KeepAliveTimeout := Option.none })
      = .error (.hubError .unauthorized .none)
    ∧ Client.startResult (.response 500 "") =
        .error (.hubError .startError (.status 500))
    ∧ Client.abortResult (.netError "refused") =
        .error (.hubError .abortError (.raw "refused")) := by
  refine ⟨?_, ?_, ?_⟩
  · exact (c2_handshake_error_mapping.2.2.2.1 401
      { TryWebSockets := true, ConnectionToken := Option.none,
        ConnectionId := Option.none, KeepAliveTimeout := Option.none }
      (Or.inr (Or.inl rfl))).1
  · exact (c2_handshake_error_mapping.2.2.2.2 500
      { TryWebSockets := true, ConnectionToken := Option.none,
        ConnectionId := Option.none, KeepAliveTimeout := Option.none }
      (by decide) (by decide)).2.1 ""
  · exact c2_handshake_error_mapping.2.2.1 "refused"

/-- Claim C3: `_error` posts the error notification first — it is the
head of the emitted trace — and the `_reconnect` invocations in the
remainder of the trace are exactly those given by the specification's
closed recovery table: full restart for negotiateError/connectError,
soft reconnect for startError/connectLost, none for every other code. -/
theorem c3_error_posts_before_recovery :
    ∀ (code : ErrorCode) (extra : ErrMsg) (s : ClientState),
      (Client.error code extra s).2.head? = some (Ev.post (.error code extra))
      ∧ reconnectCallsOf (Client.error code extra s).2.tail = specRecoveryTable code := by
  intro code extra s
  refine ⟨?_, ?_⟩
  · rw [Client.error_trace]
    rfl
  · rw [Client.error_trace, List.tail_cons]
    split
    · rename_i h
      rcases h with rfl | rfl <;>
        · show Ev.reconnectCall true :: reconnectCallsOf (Client.reconnect true s).2 = _
          rw [reconnectCallsOf_reconnect]
          rfl
    · rename_i h1
      split
      · rename_i h2
        rcases h2 with rfl | rfl <;>
          · show Ev.reconnectCall false :: reconnectCallsOf (Client.reconnect false s).2 = _
            rw [reconnectCallsOf_reconnect]
            rfl
      · rename_i h2
        cases code <;> simp_all [specRecoveryTable] <;> rfl

lemma Client.error_no_recovery (code : ErrorCode) (extra : ErrMsg) (s : ClientState)
    (h1 : ¬(code = .negotiateError ∨ code = .connectError))
    (h2 : ¬(code = .startError ∨ code = .connectLost)) :
    Client.error code extra s = (s, [Ev.post (.error code extra)]) := by
  unfold Client.error
  rw [if_neg h1, if_neg h2]

/-- Claim C4 counterexample: on the first `start` invocation with a
valid URL and an empty endpoint list, validation passes — the empty
list is an array, so `Array.isArray` accepts it — the normalization
commits (the bound flag is set) and the negotiate fetch is issued; no
noHub error is raised. -/
theorem c4_empty_hub_list_counterexample :
    Client.startPhase1 baseState =
      ({ baseState with bound := true }, [Ev.fetchNegotiate])
    ∧ (Client.startPhase1 baseState).2 = [Ev.fetchNegotiate] := by
  exact ⟨rfl, rfl⟩

/-- Claim C4 (amended): on the first invocation of `start`, a missing
URL raises invalidURL, a URL not prefixed http:/https: raises
invalidProtocol, and a non-array endpoint value raises noHub; each
failure short-circuits `start` before the normalization commits (the
state is unchanged) and no negotiate fetch is issued.  An empty
endpoint list, however, passes validation: it is normalized and the
negotiate fetch is issued. -/
theorem c4_validation_before_normalization :
    ∀ s : ClientState, s.bound = false →
      ((s.url = "" →
          Client.startPhase1 s = (s, [Ev.post (.error .invalidURL .none)]))
      ∧ (s.url ≠ "" → strStartsWith s.url "http:" = false →
          strStartsWith s.url "https:" = false →
          Client.startPhase1 s = (s, [Ev.post (.error .invalidProtocol .none)]))
      ∧ (s.hubs = .nonArray →
          (strStartsWith s.url "http:" = true ∨ strStartsWith s.url "https:" = true) →
          Client.startPhase1 s = (s, [Ev.post (.error .noHub .none)]))
      ∧ (∀ l : List NameVal, s.hubs = .arr l →
          (strStartsWith s.url "http:" = true ∨ strStartsWith s.url "https:" = true) →
          Client.startPhase1 s =
            ({ s with hubs := .arr (normalizeHubs l), bound := true },
              [Ev.fetchNegotiate]))) := by
  intro s hb
  have hprefne : (strStartsWith s.url "http:" = true ∨ strStartsWith s.url "https:" = true) →
      ¬(s.url = "") := by
    intro hpre h0
    rcases hpre with hp | hp <;> rw [h0] at hp <;> exact absurd hp (by decide)
  refine ⟨?_, ?_, ?_, ?_⟩
  · intro hu
    unfold Client.startPhase1
    rw [if_pos hb, if_pos hu]
    exact Client.error_no_recovery _ _ _ (by simp) (by simp)
  · intro hne hp1 hp2
    unfold Client.startPhase1
    rw [if_pos hb, if_neg hne, if_pos (by rw [hp1, hp2]; rfl)]
    exact Client.error_no_recovery _ _ _ (by simp) (by simp)
  · intro hhub hpre
    unfold Client.startPhase1
    rw [if_pos hb, if_neg (hprefne hpre),
      if_neg (by rcases hpre with hp | hp <;> rw [hp] <;> simp), hhub]
    exact Client.error_no_recovery _ _ _ (by simp) (by simp)
  · intro l harr hpre
    unfold Client.startPhase1
    rw [if_pos hb, if_neg (hprefne hpre),
      if_neg (by rcases hpre with hp | hp <;> rw [hp] <;> simp), harr]

/-- Claim C4 witness: the amended validation evaluated concretely — an
empty URL raises invalidURL, a ftp-prefixed URL raises invalidProtocol,
a non-array endpoint value raises noHub, each leaving the state
untouched and issuing no negotiate fetch. -/
theorem c4_validation_before_normalization_witness :
    Client.startPhase1 { baseState with url := "" } =
      ({ baseState with url := "" }, [Ev.post (.error .invalidURL .none)])
    ∧ Client.startPhase1 { baseState with url := "ftp://x" } =
      ({ baseState with url := "ftp://x" }, [Ev.post (.error .invalidProtocol .none)])
    ∧ Client.startPhase1 { baseState with hubs := .nonArray } =
      ({ baseState with hubs := .nonArray }, [Ev.post (.error .noHub .none)]) := by
  refine ⟨?_, ?_, ?_⟩
  · exact (c4_validation_before_normalization { baseState with url := "" } rfl).1 rfl
  · exact (c4_validation_before_normalization { baseState with url := "ftp://x" } rfl).2.1
      (by decide) (by decide) (by decide)
  · exact (c4_validation_before_normalization { baseState with hubs := .nonArray } rfl).2.2.1
      rfl (Or.inl (by decide))

/-- Claim C5: for every inbound frame, in every connection state,
`lastMessageAt` is set to the current time and the refresh is the first
event of the emitted trace, before any dispatch; a frame whose payload
is the literal empty-object string refreshes `lastMessageAt` and
produces nothing else — no handler dispatch and no callback
settlement (the state changes only in `lastMessageAt`). -/
theorem c5_keepalive_frame_and_mark_first :
    (∀ (type_ : String) (data : FrameData) (now : Nat) (s : ClientState),
        (Client.receiveMessage type_ data now s).1.lastMessageAt = now
        ∧ (Client.receiveMessage type_ data now s).2.head? = some Ev.markLastMessage)
    ∧ (∀ (type_ : String) (now : Nat) (s : ClientState),
        Client.receiveMessage type_ .emptyObj now s =
          ({ s with lastMessageAt := now }, [Ev.markLastMessage])) := by
  constructor
  · intro type_ data now s
    constructor <;>
      · unfold Client.receiveMessage Hub.handleCallback
        repeat' split
        all_goals simp [apply_ite]
  · intro type_ now s
    unfold Client.receiveMessage
    split <;> rfl

/-- Claim C6 counterexample: a negotiate response that does contain a
numeric `KeepAliveTimeout` — the number 0 — does not enable heartbeat
monitoring: the truthiness test `negotiateProtocol.KeepAliveTimeout &&`
treats 0 as absent, so keep-alive is disabled and the heartbeat
interval is left at its previous value instead of one quarter of the
keep-alive timeout. -/
theorem c6_keepalive_zero_counterexample :
    (Client.applyKeepAlive
        { TryWebSockets := true, ConnectionToken := Option.none,
          ConnectionId := Option.none, KeepAliveTimeout := some 0 }
        baseState).keepAlive = false
    ∧ (Client.applyKeepAlive
        { TryWebSockets := true, ConnectionToken := Option.none,
          ConnectionId := Option.none, KeepAliveTimeout := some 0 }
        baseState).beatInterval = 5000 := by
  exact ⟨rfl, rfl⟩

lemma scheduleBeat_not_mem_dispatchOne (hs : HandlerMap) (m : Message) :
    Ev.scheduleBeat ∉ Client.dispatchOne hs m := by
  intro hmem
  unfold Client.dispatchOne at hmem
  repeat' split at hmem
  all_goals simp at hmem

lemma scheduleBeat_not_mem_dispatchAll (hs : HandlerMap) (msgs : List Message) :
    Ev.scheduleBeat ∉ Client.dispatchAll hs msgs := by
  intro hmem
  unfold Client.dispatchAll at hmem
  rw [List.mem_flatten] at hmem
  obtain ⟨l, hl, hm⟩ := hmem
  obtain ⟨m, hmm, rfl⟩ := List.mem_map.mp hl
  exact scheduleBeat_not_mem_dispatchOne hs m hm

lemma Client.receiveMessage_keepAlive (type_ : String) (data : FrameData)
    (now : Nat) (s : ClientState) :
    (Client.receiveMessage type_ data now s).1.keepAlive = s.keepAlive := by
  unfold Client.receiveMessage Hub.handleCallback
  repeat' split
  all_goals simp [apply_ite]

lemma Client.receiveMessage_beatTimer (type_ : String) (data : FrameData)
    (now : Nat) (s : ClientState) :
    (Client.receiveMessage type_ data now s).1.beatTimer = s.beatTimer := by
  unfold Client.receiveMessage Hub.handleCallback
  repeat' split
  all_goals simp [apply_ite]

lemma scheduleBeat_not_mem_receiveMessage (type_ : String) (data : FrameData)
    (now : Nat) (s : ClientState) :
    Ev.scheduleBeat ∉ (Client.receiveMessage type_ data now s).2 := by
  intro hmem
  unfold Client.receiveMessage Hub.handleCallback at hmem
  repeat' split at hmem
  all_goals simp [apply_ite] at hmem
  · exact scheduleBeat_not_mem_dispatchAll _ _ hmem
  all_goals
    · rename_i hcond
      split at hmem <;> simp_all

lemma step_no_beat (s : ClientState) (e : SessEv)
    (hk : s.keepAlive = false) (hb : s.beatTimer = false) :
    (Client.step s e).1.keepAlive = false ∧ (Client.step s e).1.beatTimer = false
    ∧ Ev.scheduleBeat ∉ (Client.step s e).2 := by
  cases e with
  | sockOpen now outcome =>
      cases outcome with
      | success =>
          simp only [Client.step, Client.openHandlerBody]
          rw [hk]
          simp [hk, hb]
      | failure err =>
          simp only [Client.step, Client.openHandlerBody]
          refine ⟨?_, ?_, ?_⟩
          · rw [Client.error_keepAlive]
            exact hk
          · exact Client.error_beatTimer _ _ _ hb
          · exact scheduleBeat_not_mem_error _ _ _
  | sockMessage type_ data now =>
      simp only [Client.step]
      refine ⟨?_, ?_, ?_⟩
      · rw [Client.receiveMessage_keepAlive]
        exact hk
      · rw [Client.receiveMessage_beatTimer]
        exact hb
      · exact scheduleBeat_not_mem_receiveMessage _ _ _ _
  | sockError hasErrField err =>
      cases hasErrField with
      | true =>
          refine ⟨?_, ?_, ?_⟩
          · show (Client.error .socketError (.raw err) s).1.keepAlive = false
            rw [Client.error_keepAlive]
            exact hk
          · show (Client.error .socketError (.raw err) s).1.beatTimer = false
            exact Client.error_beatTimer _ _ _ hb
          · show Ev.scheduleBeat ∉ (Client.error .socketError (.raw err) s).2
            exact scheduleBeat_not_mem_error _ _ _
      | false => exact ⟨hk, hb, by simp [Client.step]⟩
  | sockClose =>
      simp only [Client.step]
      refine ⟨?_, ?_, ?_⟩
      · rw [Client.reconnect_keepAlive]
        exact hk
      · exact Client.reconnect_beatTimer _ _ hb
      · simp only [List.mem_append, List.cons_append, List.nil_append, List.mem_cons]
        rintro (h | h | h)
        · simp at h
        · simp at h
        · exact scheduleBeat_not_mem_reconnect _ _ h
  | beatFire now =>
      simp only [Client.step]
      rw [hb]
      simp [hk, hb]
  | reconnectFire =>
      rcases hrt : s.reconnectTimer with _ | restart
      · simp only [Client.step]
        rw [hrt]
        exact ⟨hk, hb, by simp⟩
      · simp only [Client.step]
        rw [hrt]
        simp only [Client.reconnectTimerBody]
        refine ⟨hk, hb, ?_⟩
        intro hmem
        rcases List.mem_cons.mp hmem with h | h
        · simp at h
        · rcases List.mem_cons.mp h with h' | h'
          · split at h' <;> simp_all
          · simp at h'

lemma run_no_beat (evs : List SessEv) :
    ∀ s : ClientState, s.keepAlive = false → s.beatTimer = false →
      (Client.run s evs).1.keepAlive = false ∧ (Client.run s evs).1.beatTimer = false
      ∧ Ev.scheduleBeat ∉ (Client.run s evs).2 := by
  induction evs with
  | nil =>
      intro s hk hb
      exact ⟨hk, hb, by simp [Client.run]⟩
  | cons e rest ih =>
      intro s hk hb
      obtain ⟨h1, h2, h3⟩ := step_no_beat s e hk hb
      obtain ⟨g1, g2, g3⟩ := ih (Client.step s e).1 h1 h2
      refine ⟨g1, g2, ?_⟩
      show Ev.scheduleBeat ∉ (Client.step s e).2 ++ (Client.run (Client.step s e).1 rest).2
      simp only [List.mem_append]
      rintro (h | h)
      · exact h3 h
      · exact g3 h

/-- Claim C6 (amended): a present nonzero numeric `KeepAliveTimeout`
(seconds) enables heartbeat monitoring with the keep-alive timeout
converted to milliseconds and the heartbeat interval equal to one
quarter of it; when `KeepAliveTimeout` is absent — or zero, which the
truthiness test treats as absent — heartbeat monitoring is disabled,
and with keep-alive disabled no heartbeat timer is ever scheduled for
the session under any sequence of event-loop steps. -/
theorem c6_keepalive_configuration :
    (∀ (k : Nat) (s : ClientState) (tw : Bool) (ct ci : Option String), k ≠ 0 →
        Client.applyKeepAlive
            { TryWebSockets := tw, ConnectionToken := ct,
              ConnectionId := ci, KeepAliveTimeout := some k } s =
          { s with keepAlive := true, keepAliveTimeout := k * 1000, beatInterval := k * 1000 / 4 })
    ∧ (∀ (s : ClientState) (tw : Bool) (ct ci : Option String),
        Client.applyKeepAlive
            { TryWebSockets := tw, ConnectionToken := ct,
              ConnectionId := ci, KeepAliveTimeout := Option.none } s
          = { s with keepAlive := false })
    ∧ (∀ (s : ClientState) (tw : Bool) (ct ci : Option String),
        Client.applyKeepAlive
            { TryWebSockets := tw, ConnectionToken := ct,
              ConnectionId := ci, KeepAliveTimeout := some 0 } s
          = { s with keepAlive := false })
    ∧ (∀ (evs : List SessEv) (s : ClientState),
        s.keepAlive = false → s.beatTimer = false →
          Ev.scheduleBeat ∉ (Client.run s evs).2) := by
  refine ⟨?_, fun s tw ct ci => rfl, fun s tw ct ci => rfl, ?_⟩
  · intro k s tw ct ci hk
    show (if k ≠ 0 then _ else _ : ClientState) = _
    rw [if_pos hk]
  · intro evs s hk hb
    exact (run_no_beat evs s hk hb).2.2

/-- Claim C6 witness: a negotiate response with KeepAliveTimeout 20
enables heartbeat with a 5000 ms interval, and a session started with
keep-alive disabled never schedules a heartbeat timer across a concrete
run of open, message, beat-fire, close and reconnect-fire events. -/
theorem c6_keepalive_configuration_witness :
    Client.applyKeepAlive
        { TryWebSockets := true, ConnectionToken := Option.none,
          ConnectionId := Option.none, KeepAliveTimeout := some 20 }
        baseState
      = { baseState with keepAlive := true, keepAliveTimeout := 20000, beatInterval := 5000 }
    ∧ Ev.scheduleBeat ∉ (Client.run { baseState with keepAlive := false }
        [.sockOpen 5 .success, .sockMessage "message" .emptyObj 7, .beatFire 9000,
          .sockClose, .reconnectFire, .sockOpen 11 .success]).2 := by
  constructor
  · exact c6_keepalive_configuration.1 20 baseState true Option.none Option.none
      (by decide)
  · exact c6_keepalive_configuration.2.2.2
      [.sockOpen 5 .success, .sockMessage "message" .emptyObj 7, .beatFire 9000,
        .sockClose, .reconnectFire, .sockOpen 11 .success]
      { baseState with keepAlive := false } rfl rfl

/-- Claim C7 counterexample: in the current Hub (src/classes/Hub.ts)
registering a second callback for the same (endpoint, method) pair does
not replace the first — `on` pushes a new triple onto the handlers
list, so both registrations are retained. -/
theorem c7_handler_overwrite_counterexample :
    HubT.on (HubT.on [] "hubA" "methodA" 1) "hubA" "methodA" 2
      = [("hubA", "methodA", 1), ("hubA", "methodA", 2)]
    ∧ ("hubA", "methodA", 1) ∈ HubT.on (HubT.on [] "hubA" "methodA" 1) "hubA" "methodA" 2 := by
  refine ⟨rfl, ?_⟩
  simp [HubT.on]

/-- Claim C7 (amended): registration semantics differ between the two
Hub variants kept in the repository.  In the current tuple-list Hub
(src/classes/Hub.ts) `on` appends the (endpoint, method, callback)
triple, retaining every previous registration for the pair — no
overwrite, no at-most-one-callback invariant.  In the record-based Hub
(src/unnamed/part_002 and src/src.ts) `on` does overwrite: the
two-level lookup used by dispatch yields the last-registered callback. -/
theorem c7_registration_append_not_overwrite :
    (∀ (hs : List (String × String × Nat)) (h m : String) (c1 c2 : Nat),
        HubT.on (HubT.on hs h m c1) h m c2 = hs ++ [(h, m, c1), (h, m, c2)])
    ∧ (∀ (hs : HandlerMap) (h m : String) (c : Nat),
        Hub.lookupHandler (Hub.on hs h m c) h m = some c)
    ∧ (∀ (hs : HandlerMap) (h m : String) (c1 c2 : Nat),
        Hub.lookupHandler (Hub.on (Hub.on hs h m c1) h m c2) h m = some c2) := by
  refine ⟨?_, ?_, ?_⟩
  · intro hs h m c1 c2
    simp [HubT.on]
  · intro hs h m c
    unfold Hub.lookupHandler Hub.on
    rw [recordGet_recordSet_self]
    exact recordGet_recordSet_self _ _ _
  · intro hs h m c1 c2
    unfold Hub.lookupHandler Hub.on
    rw [recordGet_recordSet_self]
    exact recordGet_recordSet_self _ _ _

lemma reconnectingPostsOf_reconnect (b : Bool) (s : ClientState) :
    reconnectingPostsOf (Client.reconnect b s).2 = [] := by
  unfold Client.reconnect
  split
  · rfl
  · show reconnectingPostsOf ((Client.close _).2 ++ [.scheduleReconnect]) = []
    unfold reconnectingPostsOf
    rw [List.filter_append]
    have h := reconnectingPostsOf_close (Client.clearBeatTimer s)
    unfold reconnectingPostsOf at h
    rw [h]
    rfl

lemma reconnectingPostsOf_timerBody (restart : Bool) (s : ClientState) :
    reconnectingPostsOf (Client.reconnectTimerBody restart s).2
      = [Ev.post (.reconnecting (s.reconnectCount + 1))] := by
  cases restart <;> rfl

/-- Claim C8: reconnection is debounced — `_reconnect` is a no-op while
a reconnect timer is pending or the state is already reconnecting, so a
second `_reconnect` call before the delay elapses changes nothing and
emits nothing, and the one scheduled timer firing performs exactly one
attempt-counter increment and posts exactly one reconnecting
notification across the whole exchange. -/
theorem c8_reconnect_debounce :
    (∀ (s : ClientState) (b : Bool),
        (s.reconnectTimer.isSome = true ∨ s.connState = .reconnecting) →
          Client.reconnect b s = (s, []))
    ∧ (∀ (s : ClientState) (b1 b2 : Bool),
        s.reconnectTimer = Option.none → s.connState ≠ .reconnecting →
          (Client.reconnect b2 (Client.reconnect b1 s).1 = ((Client.reconnect b1 s).1, [])
          ∧ (Client.step (Client.reconnect b1 s).1 .reconnectFire).1.reconnectCount
              = s.reconnectCount + 1
          ∧ reconnectingPostsOf ((Client.reconnect b1 s).2
              ++ (Client.step (Client.reconnect b1 s).1 .reconnectFire).2)
            = [Ev.post (.reconnecting (s.reconnectCount + 1))])) := by
  constructor
  · intro s b h
    exact Client.reconnect_debounced b s h
  · intro s b1 b2 h1 h2
    have harm := Client.reconnect_armed b1 s h1 h2
    have hs1timer : (Client.reconnect b1 s).1.reconnectTimer = some b1 := by
      rw [harm]
    have hstep : Client.step (Client.reconnect b1 s).1 .reconnectFire
        = Client.reconnectTimerBody b1 (Client.reconnect b1 s).1 := by
      show (match (Client.reconnect b1 s).1.reconnectTimer with
        | some restart => Client.reconnectTimerBody restart (Client.reconnect b1 s).1
        | Option.none => ((Client.reconnect b1 s).1, [])) = _
      rw [hs1timer]
    refine ⟨?_, ?_, ?_⟩
    · exact Client.reconnect_debounced b2 _ (Or.inl (by rw [hs1timer]; rfl))
    · rw [hstep]
      show (Client.reconnect b1 s).1.reconnectCount + 1 = s.reconnectCount + 1
      rw [Client.reconnect_reconnectCount]
    · rw [reconnectingPostsOf, List.filter_append]
      have hl := reconnectingPostsOf_reconnect b1 s
      rw [reconnectingPostsOf] at hl
      rw [hl, List.nil_append, hstep]
      have hr := reconnectingPostsOf_timerBody b1 (Client.reconnect b1 s).1
      rw [reconnectingPostsOf] at hr
      rw [hr, Client.reconnect_reconnectCount]

/-- Claim C8 witness: concretely, a reconnect call while a timer is
pending is a no-op; after one reconnect call on a fresh client a second
call is a no-op, and the timer firing posts exactly one reconnecting
notification with attempt count 1. -/
theorem c8_reconnect_debounce_witness :
    Client.reconnect false { baseState with reconnectTimer := some true } =
      ({ baseState with reconnectTimer := some true }, [])
    ∧ Client.reconnect false (Client.reconnect true baseState).1 =
        ((Client.reconnect true baseState).1, [])
    ∧ reconnectingPostsOf ((Client.reconnect true baseState).2
        ++ (Client.step (Client.reconnect true baseState).1 .reconnectFire).2)
      = [Ev.post (.reconnecting 1)] := by
  refine ⟨?_, ?_, ?_⟩
  · exact c8_reconnect_debounce.1 { baseState with reconnectTimer := some true } false
      (Or.inl rfl)
  · exact (c8_reconnect_debounce.2 baseState true false rfl (by decide)).1
  · exact (c8_reconnect_debounce.2 baseState true false rfl (by decide)).2.2

/-- Claim C9 counterexample: `_close` rebinds only three of the four
installed handlers — onclose, onmessage and onerror — before calling
`close()`; the snapshot of the socket at the moment `close()` is issued
still has the onopen handler installed, so not all four handlers are
rebound to no-ops before the transport is closed. -/
theorem c9_close_counterexample :
    Client.close { baseState with websocket := some ⟨.installed, .installed, .installed, .installed⟩ }
      = ({ baseState with websocket := Option.none },
        [Ev.rebind .hclose, Ev.rebind .hmessage, Ev.rebind .herror,
          Ev.closeSocket ⟨.installed, .noop, .noop, .noop⟩])
    ∧ Socket.onopen ⟨.installed, .noop, .noop, .noop⟩ = .installed := by
  exact ⟨rfl, rfl⟩

/-- Claim C9 (amended): before `close()` is issued, `_close` rebinds
the close, message and error handlers to no-ops — those three rebind
events precede the closeSocket event — while the open handler keeps
whatever binding it had; then the socket reference is dropped. -/
theorem c9_close_rebinds_three_handlers :
    ∀ (s : ClientState) (w : Socket), s.websocket = some w →
      Client.close s = ({ s with websocket := Option.none },
        [Ev.rebind .hclose, Ev.rebind .hmessage, Ev.rebind .herror,
          Ev.closeSocket { w with onmessage := .noop, onerror := .noop, onclose := .noop }]) := by
  intro s w hw
  unfold Client.close
  rw [hw]

/-- Claim C9 witness: the amended close behaviour evaluated on a
concrete socket whose open handler was already a no-op. -/
theorem c9_close_rebinds_three_handlers_witness :
    Client.close { baseState with websocket := some ⟨.noop, .installed, .installed, .installed⟩ }
      = ({ baseState with websocket := Option.none },
        [Ev.rebind .hclose, Ev.rebind .hmessage, Ev.rebind .herror,
          Ev.closeSocket ⟨.noop, .noop, .noop, .noop⟩]) := by
  exact c9_close_rebinds_three_handlers
    { baseState with websocket := some ⟨.noop, .installed, .installed, .installed⟩ }
    ⟨.noop, .installed, .installed, .installed⟩ rfl

lemma Client.beat_invocationId (now : Nat) (s : ClientState) :
    (Client.beat now s).1.invocationId = s.invocationId := by
  unfold Client.beat
  split
  · split
    · rw [Client.error_invocationId]
    · rfl
  · rfl

lemma Client.openHandler_invocationId (now : Nat) (outcome : StartOutcome)
    (s : ClientState) : (Client.openHandlerBody now outcome s).1.invocationId = 0 := by
  cases outcome with
  | success =>
      simp only [Client.openHandlerBody]
      split
      · rw [Client.beat_invocationId]
      · rfl
  | failure err =>
      simp only [Client.openHandlerBody]
      rw [Client.error_invocationId]

/-- Claim C10: the transport-open handler resets `_invocationId` to 0,
so the first call registered after a transport open gets correlation
id 0; an inbound response frame whose `I` equals 0 never reaches
callback settlement — the truthiness test drops it and the state is
exactly as for a keepalive frame — so that first call can only end via
its timeout path, which does settle (reject) it. -/
theorem c10_first_call_only_times_out :
    (∀ (s : ClientState) (now : Nat) (outcome : StartOutcome),
        (Client.step s (.sockOpen now outcome)).1.invocationId = 0)
    ∧ (∀ (s : ClientState) (now : Nat) (outcome : StartOutcome),
        (Hub.callRegister (Client.step s (.sockOpen now outcome)).1).2 = 0)
    ∧ (∀ (s : ClientState) (now : Nat) (E : Option String) (R : Option Bool),
        Client.receiveMessage "message"
            (.obj { M := Option.none, I := some 0, E := E, R := R }) now s
          = ({ s with lastMessageAt := now }, [Ev.markLastMessage]))
    ∧ (Hub.callStepEv Hub.callInit .timeout).promise = .rejected .timeoutError := by
  refine ⟨?_, ?_, ?_, rfl⟩
  · intro s now outcome
    exact Client.openHandler_invocationId now outcome s
  · intro s now outcome
    show (Client.step s (.sockOpen now outcome)).1.invocationId = 0
    exact Client.openHandler_invocationId now outcome s
  · intro s now E R
    rfl

end DenoSignalR
